import Mathlib

/-!
Verification of the FSAL_DAOSFS adapter (nfs-ganesha FSAL for a DAOS-backed
filesystem) against its natural-language specification.

The development shallowly embeds the C sources under
`src/src/FSAL/FSAL_DAOSFS/` (`handle.c`, `internal.c`, `export.c`,
`internal.h`).  Backend library calls (`DaosFileSystem*`) are opaque: their
results are supplied as explicit oracle inputs, and every call performed by
the adapter is recorded in an event trace so that claims about which backend
calls happen (and on which node) can be settled.  Pieces of nfs-ganesha
common code that the adapter calls but that are not part of the given
sources (share-reservation helpers, `fsal_find_fd`, verifier helpers,
`posix2fsal_error`) are modelled from the specification text; each such
definition carries a doc comment starting with `Modelled from the spec:`.
-/

/- ================= Error domain (internal.c) ================= -/

/-- The generic FSAL status vocabulary (values of `fsal_errors_t` used by
this adapter). `ERR_FSAL_IO` is spelled `ERR_FSAL_IOERR` and `ERR_FSAL_NXIO` is spelled `ERR_FSAL_NOSUCHDEV` here. -/
inductive fsal_errors
  | ERR_FSAL_NO_ERROR
  | ERR_FSAL_PERM
  | ERR_FSAL_NOENT
  | ERR_FSAL_IOERR
  | ERR_FSAL_NOSUCHDEV
  | ERR_FSAL_NOT_OPENED
  | ERR_FSAL_NOMEM
  | ERR_FSAL_ACCESS
  | ERR_FSAL_FAULT
  | ERR_FSAL_EXIST
  | ERR_FSAL_XDEV
  | ERR_FSAL_NOTDIR
  | ERR_FSAL_ISDIR
  | ERR_FSAL_INVAL
  | ERR_FSAL_FBIG
  | ERR_FSAL_NOSPC
  | ERR_FSAL_MLINK
  | ERR_FSAL_DQUOT
  | ERR_FSAL_NAMETOOLONG
  | ERR_FSAL_NOTEMPTY
  | ERR_FSAL_STALE
  | ERR_FSAL_DELAY
  | ERR_FSAL_SERVERFAULT
  | ERR_FSAL_SHARE_DENIED
  | ERR_FSAL_NOTSUPP
  | ERR_FSAL_TOOSMALL
deriving DecidableEq, Repr

/-- `fsal_status_t`: a major error kind plus a minor (POSIX) code. -/
structure fsal_status where
  major : fsal_errors
  minor : Int
deriving DecidableEq, Repr

/-- `fsalstat(ERR_FSAL_NO_ERROR, 0)`. -/
def fsal_ok : fsal_status := { major := .ERR_FSAL_NO_ERROR, minor := 0 }

/-- `FSAL_IS_ERROR(status)`: true when the major kind is not `NO_ERROR`. -/
def is_err (s : fsal_status) : Bool := s.major != .ERR_FSAL_NO_ERROR

/- POSIX errno values (Linux), as used by the backend's negated-errno
   convention. -/
def EPERM : Int := 1
def ENOENT : Int := 2
def EIO_code : Int := 5
def ENXIO : Int := 6
def EBADF : Int := 9
def EAGAIN : Int := 11
def ENOMEM : Int := 12
def EACCES : Int := 13
def EFAULT : Int := 14
def EBUSY : Int := 16
def EEXIST : Int := 17
def EXDEV : Int := 18
def ENODEV : Int := 19
def ENOTDIR : Int := 20
def EISDIR : Int := 21
def EINVAL : Int := 22
def ENFILE : Int := 23
def EMFILE : Int := 24
def EFBIG : Int := 27
def ENOSPC : Int := 28
def EMLINK : Int := 31
def EPIPE : Int := 32
def ENAMETOOLONG : Int := 36
def ENOTEMPTY : Int := 39
def ECONNABORTED : Int := 103
def ECONNRESET : Int := 104
def ECONNREFUSED : Int := 111
def ESTALE : Int := 116
def EDQUOT : Int := 122

/-- `daosfs2fsal_error` (internal.c, lines 39-155): translate a DAOSFS error
code (a negated POSIX errno) into an FSAL status.  The minor code is set to
`-daosfs_errorcode` (the positive POSIX errno), and the major code follows
the switch on `-daosfs_errorcode`. -/
def daosfs2fsal_error (daosfs_errorcode : Int) : fsal_status :=
  { minor := -daosfs_errorcode,
    major :=
      if -daosfs_errorcode = 0 then .ERR_FSAL_NO_ERROR
      else if -daosfs_errorcode = EPERM then .ERR_FSAL_PERM
      else if -daosfs_errorcode = ENOENT then .ERR_FSAL_NOENT
      else if -daosfs_errorcode = ECONNREFUSED ∨ -daosfs_errorcode = ECONNABORTED ∨
              -daosfs_errorcode = ECONNRESET ∨ -daosfs_errorcode = EIO_code ∨
              -daosfs_errorcode = ENFILE ∨ -daosfs_errorcode = EMFILE ∨
              -daosfs_errorcode = EPIPE then .ERR_FSAL_IOERR
      else if -daosfs_errorcode = ENODEV ∨ -daosfs_errorcode = ENXIO then .ERR_FSAL_NOSUCHDEV
      else if -daosfs_errorcode = EBADF then .ERR_FSAL_NOT_OPENED
      else if -daosfs_errorcode = ENOMEM then .ERR_FSAL_NOMEM
      else if -daosfs_errorcode = EACCES then .ERR_FSAL_ACCESS
      else if -daosfs_errorcode = EFAULT then .ERR_FSAL_FAULT
      else if -daosfs_errorcode = EEXIST then .ERR_FSAL_EXIST
      else if -daosfs_errorcode = EXDEV then .ERR_FSAL_XDEV
      else if -daosfs_errorcode = ENOTDIR then .ERR_FSAL_NOTDIR
      else if -daosfs_errorcode = EISDIR then .ERR_FSAL_ISDIR
      else if -daosfs_errorcode = EINVAL then .ERR_FSAL_INVAL
      else if -daosfs_errorcode = EFBIG then .ERR_FSAL_FBIG
      else if -daosfs_errorcode = ENOSPC then .ERR_FSAL_NOSPC
      else if -daosfs_errorcode = EMLINK then .ERR_FSAL_MLINK
      else if -daosfs_errorcode = EDQUOT then .ERR_FSAL_DQUOT
      else if -daosfs_errorcode = ENAMETOOLONG then .ERR_FSAL_NAMETOOLONG
      else if -daosfs_errorcode = ENOTEMPTY then .ERR_FSAL_NOTEMPTY
      else if -daosfs_errorcode = ESTALE then .ERR_FSAL_STALE
      else if -daosfs_errorcode = EAGAIN ∨ -daosfs_errorcode = EBUSY then .ERR_FSAL_DELAY
      else .ERR_FSAL_SERVERFAULT }

/-- The spec's error-mapping table (§4.5), written from the specification's
words, over the positive POSIX errno `e`: permission→Perm, missing→NotFound,
{connection-refused/aborted/reset, I/O, too-many-files, broken-pipe}→IOError
(too-many-files covers both the per-process and the system-wide limit),
{no-device, no-such-device-or-address}→NoSuchDevice, bad-descriptor→NotOpen,
out-of-memory→NoMemory, access→AccessDenied, fault→Fault,
exists→AlreadyExists, cross-device→CrossDevice, not-a-directory→NotDirectory,
is-a-directory→IsDirectory, invalid→InvalidArgument, too-big→TooBig,
no-space→NoSpace, too-many-links→TooManyLinks, quota→QuotaExceeded,
name-too-long→NameTooLong, not-empty→NotEmpty, stale→Stale,
{again, busy}→TemporaryDelay, anything else→ServerFault. -/
def spec_error_major (e : Int) : fsal_errors :=
  if e = EPERM then .ERR_FSAL_PERM
  else if e = ENOENT then .ERR_FSAL_NOENT
  else if e = ECONNREFUSED ∨ e = ECONNABORTED ∨ e = ECONNRESET ∨ e = EIO_code ∨
          e = ENFILE ∨ e = EMFILE ∨ e = EPIPE then .ERR_FSAL_IOERR
  else if e = ENODEV ∨ e = ENXIO then .ERR_FSAL_NOSUCHDEV
  else if e = EBADF then .ERR_FSAL_NOT_OPENED
  else if e = ENOMEM then .ERR_FSAL_NOMEM
  else if e = EACCES then .ERR_FSAL_ACCESS
  else if e = EFAULT then .ERR_FSAL_FAULT
  else if e = EEXIST then .ERR_FSAL_EXIST
  else if e = EXDEV then .ERR_FSAL_XDEV
  else if e = ENOTDIR then .ERR_FSAL_NOTDIR
  else if e = EISDIR then .ERR_FSAL_ISDIR
  else if e = EINVAL then .ERR_FSAL_INVAL
  else if e = EFBIG then .ERR_FSAL_FBIG
  else if e = ENOSPC then .ERR_FSAL_NOSPC
  else if e = EMLINK then .ERR_FSAL_MLINK
  else if e = EDQUOT then .ERR_FSAL_DQUOT
  else if e = ENAMETOOLONG then .ERR_FSAL_NAMETOOLONG
  else if e = ENOTEMPTY then .ERR_FSAL_NOTEMPTY
  else if e = ESTALE then .ERR_FSAL_STALE
  else if e = EAGAIN ∨ e = EBUSY then .ERR_FSAL_DELAY
  else .ERR_FSAL_SERVERFAULT

/-- Modelled from the spec: `posix2fsal_error` (nfs-ganesha common code, not
under src/) maps a positive POSIX errno to the generic major status; the
spec's §4.5 table is the same mapping used by `daosfs2fsal_error`. -/
def posix2fsal_error (e : Int) : fsal_errors := (daosfs2fsal_error (-e)).major

/- ================= Open modes and POSIX flags ================= -/

/-- The access component of `fsal_openflags_t`
(`FSAL_O_CLOSED/READ/WRITE/RDWR`). -/
inductive fsal_access
  | O_CLOSED
  | O_READ
  | O_WRITE
  | O_RDWR
deriving DecidableEq, Repr

/-- `fsal_openflags_t`: access component, deny components, and the truncate
bit.  `deny_both_mand` stands for the mandatory deny conflict the spec says
is never bypassed. -/
structure fsal_openflags where
  access : fsal_access
  deny_read : Bool
  deny_write : Bool
  deny_both_mand : Bool
  trunc : Bool
deriving DecidableEq, Repr

/-- `FSAL_O_CLOSED`: no access, no deny, no truncate. -/
def FSAL_O_CLOSED : fsal_openflags :=
  { access := .O_CLOSED, deny_read := false, deny_write := false,
    deny_both_mand := false, trunc := false }

/-- `FSAL_O_RDWR` with no deny bits (as requested by `setattr2`'s
size-change check). -/
def FSAL_O_RDWR_flags : fsal_openflags :=
  { access := .O_RDWR, deny_read := false, deny_write := false,
    deny_both_mand := false, trunc := false }

/-- POSIX open flags assembled by `open2` (`O_CREAT`, `O_EXCL`, `O_TRUNC`
plus the access mode). -/
structure posix_flags where
  read : Bool
  write : Bool
  trunc : Bool
  creat : Bool
  excl : Bool
deriving DecidableEq, Repr

/-- `fsal2posix_openflags`: map FSAL open flags to POSIX flags (access bits
and `O_TRUNC`; `O_CREAT`/`O_EXCL` are added later by the create path). -/
def fsal2posix_openflags (of : fsal_openflags) : posix_flags :=
  { read := of.access = .O_READ ∨ of.access = .O_RDWR,
    write := of.access = .O_WRITE ∨ of.access = .O_RDWR,
    trunc := of.trunc,
    creat := false,
    excl := false }

/-- `fsal_create_mode` (`enum fsal_create_mode`). -/
inductive fsal_create_mode
  | FSAL_NO_CREATE
  | FSAL_UNCHECKED
  | FSAL_GUARDED
  | FSAL_EXCLUSIVE
  | FSAL_EXCLUSIVE_41
  | FSAL_EXCLUSIVE_9P
deriving DecidableEq, Repr

/-- Numeric value of each create mode, matching the C enum order, so that
the source's `createmode >= FSAL_EXCLUSIVE` comparisons can be modelled. -/
def fsal_create_mode.code : fsal_create_mode → Nat
  | .FSAL_NO_CREATE => 0
  | .FSAL_UNCHECKED => 1
  | .FSAL_GUARDED => 2
  | .FSAL_EXCLUSIVE => 3
  | .FSAL_EXCLUSIVE_41 => 4
  | .FSAL_EXCLUSIVE_9P => 5

/-- `createmode >= FSAL_EXCLUSIVE`. -/
def ge_exclusive (cm : fsal_create_mode) : Bool :=
  decide (fsal_create_mode.FSAL_EXCLUSIVE.code ≤ cm.code)

/-- `createmode >= FSAL_GUARDED`. -/
def ge_guarded (cm : fsal_create_mode) : Bool :=
  decide (fsal_create_mode.FSAL_GUARDED.code ≤ cm.code)

/- ================= Share-Reservation Engine ================= -/

/-- Modelled from the spec (§3, §4.2): the Share-Reservation Record keeps
per-mode open counters sufficient to answer conflict queries.  It is
represented as the multiset (here: list) of currently granted open modes;
the counter for a mode is its multiplicity.  Initialized empty (all
counters zero) at Handle construction. -/
abbrev fsal_share : Type := List fsal_openflags

/-- The share record of a freshly constructed handle: all counters zero. -/
def empty_share : fsal_share := []

/-- Modelled from the spec (§4.2): `update(record, old_mode, new_mode)`
atomically decrements the counter for `old_mode` (if not closed) and
increments the counter for `new_mode` (if not closed); this one call
implements open, upgrade/downgrade, and close. -/
def update_share_counters (share : fsal_share) (old_mode new_mode : fsal_openflags) :
    fsal_share :=
  let s1 : List fsal_openflags :=
    if old_mode = FSAL_O_CLOSED then share else List.erase share old_mode
  if new_mode = FSAL_O_CLOSED then s1 else new_mode :: s1

/-- Modelled from the spec (§4.2): does one currently held mode conflict
with the requested access mode?  `bypass` suppresses non-mandatory deny
checks but never the mandatory deny-both conflict. -/
def share_conflicts_with (held req : fsal_openflags) (bypass : Bool) : Bool :=
  let wantsRead := req.access = .O_READ ∨ req.access = .O_RDWR
  let wantsWrite := req.access = .O_WRITE ∨ req.access = .O_RDWR
  (held.deny_both_mand && (wantsRead || wantsWrite)) ||
  (!bypass && ((held.deny_read && wantsRead) || (held.deny_write && wantsWrite)))

/-- Modelled from the spec (§4.2): `check_conflict(record, requested_mode,
bypass)` evaluates whether any currently held deny-mode conflicts with the
requested access mode.  Pure: no side effect on the record. -/
def check_share_conflict (share : fsal_share) (req : fsal_openflags) (bypass : Bool) :
    Bool :=
  share.any (fun held => share_conflicts_with held req bypass)

/-- Modelled from the spec (§4.4): `fsal_find_fd` as invoked by `setattr2`
with `FSAL_O_RDWR` verifies a read/write access grant through the
Share-Reservation Engine (no fd is actually needed); it fails with
`ShareDenied` when granting read/write would conflict. -/
def fsal_find_fd_rdwr (share : fsal_share) (bypass : Bool) : fsal_status :=
  if check_share_conflict share FSAL_O_RDWR_flags bypass then
    { major := .ERR_FSAL_SHARE_DENIED, minor := 0 }
  else fsal_ok

/- ================= Attributes and verifier ================= -/

/-- `attrlist` restricted to what this adapter reads and writes: one flag
per settable attribute bit (`valid_mask`), a flag recording whether any bit
outside `daosfs_settable_attributes` is present, the payload values the
adapter copies, and the embedded create verifier (the attribute fields
repurposed for idempotency checking). -/
structure attrlist where
  set_mode : Bool
  set_owner : Bool
  set_group : Bool
  set_atime : Bool
  set_atime_server : Bool
  set_mtime : Bool
  set_mtime_server : Bool
  set_ctime : Bool
  set_size : Bool
  has_unsettable : Bool
  mode : Nat
  owner : Nat
  group : Nat
  filesize : Nat
  verf : Option Nat
deriving DecidableEq, Repr

/-- An all-zero attribute list (the `memset` `verifier_attr`). -/
def empty_attrlist : attrlist :=
  { set_mode := false, set_owner := false, set_group := false,
    set_atime := false, set_atime_server := false, set_mtime := false,
    set_mtime_server := false, set_ctime := false, set_size := false,
    has_unsettable := false, mode := 0, owner := 0, group := 0,
    filesize := 0, verf := none }

/-- `attrib_set->valid_mask != 0`. -/
def attrlist.mask_nonzero (a : attrlist) : Bool :=
  a.set_mode || a.set_owner || a.set_group || a.set_atime ||
  a.set_atime_server || a.set_mtime || a.set_mtime_server || a.set_ctime ||
  a.set_size || a.has_unsettable

/-- Modelled from the spec (§4.4): `set_common_verifier` writes the
client-supplied opaque verifier into attribute fields repurposed for
idempotency checking (the atime/mtime fields, whose mask bits it sets). -/
def set_common_verifier (a : attrlist) (verifier : Nat) : attrlist :=
  { a with verf := some verifier, set_atime := true, set_mtime := true }

/-- The object file types this adapter distinguishes. -/
inductive object_file_type
  | NO_FILE_TYPE
  | REGULAR_FILE
  | DIRECTORY
  | SYMBOLIC_LINK
deriving DecidableEq, Repr

/-- The backend's `struct stat` as consumed by the adapter: file type (as
decoded from `st_mode` by `posix2fsal_type`), size, inode, owner, group,
and the stored verifier value (the repurposed time fields). -/
structure BStat where
  ftype : object_file_type
  st_size : Nat
  st_ino : Nat
  st_uid : Nat
  st_gid : Nat
  verf : Option Nat
deriving DecidableEq, Repr

/-- Modelled from the spec (§4.4): `check_verifier` reads the repurposed
attribute fields of the (freshly refreshed) backend attributes and compares
them with the client-supplied verifier. -/
def check_verifier (st : BStat) (verifier : Nat) : Bool :=
  st.verf = some verifier

/- ================= Handles and backend-call traces ================= -/

/-- `struct daosfs_fsal_handle`: the adapter-level handle.  `node_handle`
is the bound backend node (identified by a numeric id), `obj_type` is the
type derived from the stat mode at construction, and `share`/`openflags`
are the share-reservation record and current open-mode flags.  File names
are modelled as numeric identifiers. -/
structure daosfs_fsal_handle where
  node_handle : Nat
  obj_type : object_file_type
  fileid : Nat
  share : fsal_share
  openflags : fsal_openflags
deriving DecidableEq, Repr

/-- One call into the backend storage library, with the node it targets. -/
inductive BackendCall
  | bOpen (node : Nat) (flags : posix_flags)
  | bClose (node : Nat)
  | bCreate (dirNode : Nat) (name : Nat) (flags : posix_flags)
  | bUnlink (dirNode : Nat) (name : Nat)
  | bGetAttr (node : Nat)
  | bTruncate (node : Nat) (size : Nat)
  | bSetAttr (node : Nat)
  | bFreeNodeHandle (node : Nat)
  | bRead (node : Nat) (offset : Nat) (len : Nat)
  | bLookup (dirNode : Nat) (name : Nat)
deriving DecidableEq, Repr

/-- `construct_handle` (internal.c, lines 173-206): bind a backend node
handle, set the type from the stat mode, fileid from `st_ino`; the share
record starts empty and the open-mode flags closed (the struct is
`gsh_calloc`ed). -/
def construct_handle (node : Nat) (st : BStat) : daosfs_fsal_handle :=
  { node_handle := node, obj_type := st.ftype, fileid := st.st_ino,
    share := empty_share, openflags := FSAL_O_CLOSED }

/-- `deconstruct_handle` (internal.c, lines 208-213): unconditionally
releases the backend node handle (then frees the Handle object).  The
returned trace lists the backend calls it performs. -/
def deconstruct_handle_events (obj : daosfs_fsal_handle) : List BackendCall :=
  [BackendCall.bFreeNodeHandle obj.node_handle]

/-- `release` (handle.c, lines 27-38): if the handle's backend node handle
differs from the export root's, release it; then call
`deconstruct_handle`.  `root_node` is the export root's backend node. -/
def release_events (obj : daosfs_fsal_handle) (root_node : Nat) : List BackendCall :=
  (if obj.node_handle ≠ root_node then [BackendCall.bFreeNodeHandle obj.node_handle]
   else []) ++
  deconstruct_handle_events obj

/-- The protocol server state-token types `close2` distinguishes. -/
inductive state_type
  | share_st
  | nlm_share_st
  | p9_fid_st
  | lock_st
  | deleg_st
deriving DecidableEq, Repr

/- ================= close2 (handle.c, lines 1322-1357) ================= -/

/-- `daosfs_fsal_close2`: when called with a share-type state, update the
share counters from `handle->openflags` down to `FSAL_O_CLOSED` (under the
handle lock); then call the backend close; on success reset
`handle->openflags` to closed.  `close_result` is the backend close's
return code. -/
def daosfs_fsal_close2 (h : daosfs_fsal_handle) (state : Option state_type)
    (close_result : Int) : daosfs_fsal_handle × fsal_status × List BackendCall :=
  let h1 :=
    match state with
    | some t =>
      if t = .share_st ∨ t = .nlm_share_st ∨ t = .p9_fid_st then
        { h with share := update_share_counters h.share h.openflags FSAL_O_CLOSED }
      else h
    | none => h
  let ev := [BackendCall.bClose h.node_handle]
  if close_result < 0 then (h1, daosfs2fsal_error close_result, ev)
  else ({ h1 with openflags := FSAL_O_CLOSED }, fsal_ok, ev)

/- ========== open2, open-by-handle branch (handle.c, lines 673-839) ========== -/

/-- Outcome of a backend call that either fails with a negative code or
returns a value. -/
inductive BackendRes (A : Type)
  | error (rc : Int)
  | ok (v : A)
deriving DecidableEq, Repr

/-- Oracle for the backend calls made by the open-by-handle branch. -/
structure OpenBackend where
  openResult : Int
  getattrResult : BackendRes BStat
  closeResult : Int
deriving DecidableEq, Repr

/-- Result of an `open2` branch: the (possibly updated) handle the branch
operated on, the optional new object handle, the status, the backend-call
trace, and the value stored through `caller_perm_check` (none when the
source leaves it untouched). -/
structure Open2Result where
  obj : daosfs_fsal_handle
  new_obj : Option daosfs_fsal_handle
  status : fsal_status
  events : List BackendCall
  caller_perm_check : Option Bool
deriving DecidableEq, Repr

/-- `daosfs_fsal_open2`, verifier fixup (handle.c, lines 714-723): when the
create mode implies exclusivity, the attribute set is replaced by a
zeroed `verifier_attr` if the caller supplied none, and
`set_common_verifier` embeds the verifier - before any branch runs. -/
def open2_effective_attrs (attrib_set : Option attrlist)
    (createmode : fsal_create_mode) (verifier : Nat) : Option attrlist :=
  if ge_exclusive createmode then
    some (set_common_verifier (attrib_set.getD empty_attrlist) verifier)
  else attrib_set

/-- `daosfs_fsal_open2`, open-by-handle branch (handle.c, lines 725-839):
with a state token, check share conflicts and optimistically update the
counters before the backend open, reverting them if the backend open (or a
later step) fails; without a state token nothing is reserved.  After a
successful open, for exclusive create modes (or truncating opens) the
attributes are refreshed and, for verifier-checking modes, a verifier
mismatch yields the `EEXIST` translation.  Note the source never assigns
`handle->openflags` in this branch.  Also note that when the backend open
fails WITH a state token, the source jumps to `undo_share` (line 775)
without assigning `status`, so after reverting the counters it returns the
still-initial `{0,0}` success status (only the stateless branch, line 772,
returns `daosfs2fsal_error(rc)`). -/
def open2_by_handle (h : daosfs_fsal_handle) (state : Option state_type)
    (openflags : fsal_openflags) (createmode : fsal_create_mode)
    (verifier : Nat) (b : OpenBackend) : Open2Result :=
  let posix := fsal2posix_openflags openflags
  let truncated := posix.trunc
  if state.isSome && check_share_conflict h.share openflags false then
    { obj := h, new_obj := none,
      status := { major := .ERR_FSAL_SHARE_DENIED, minor := 0 },
      events := [], caller_perm_check := none }
  else
    let h1 :=
      if state.isSome then
        { h with share := update_share_counters h.share FSAL_O_CLOSED openflags }
      else h
    let ev0 := [BackendCall.bOpen h.node_handle posix]
    if b.openResult < 0 then
      if state.isSome then
        { obj := { h1 with share := update_share_counters h1.share openflags FSAL_O_CLOSED },
          new_obj := none, status := fsal_ok,
          events := ev0, caller_perm_check := none }
      else
        { obj := h, new_obj := none, status := daosfs2fsal_error b.openResult,
          events := ev0, caller_perm_check := none }
    else
      let statusAndTrace : fsal_status × List BackendCall :=
        if ge_exclusive createmode || truncated then
          match b.getattrResult with
          | .error rc => (daosfs2fsal_error rc, [BackendCall.bGetAttr h.node_handle])
          | .ok st =>
            if ge_exclusive createmode && createmode != .FSAL_EXCLUSIVE_9P &&
               !(check_verifier st verifier) then
              ({ major := posix2fsal_error EEXIST, minor := EEXIST },
               [BackendCall.bGetAttr h.node_handle])
            else (fsal_ok, [BackendCall.bGetAttr h.node_handle])
        else (fsal_ok, [])
      let status := statusAndTrace.1
      let ev1 := ev0 ++ statusAndTrace.2
      if !state.isSome then
        { obj := h1, new_obj := none, status := status, events := ev1,
          caller_perm_check := some (!(is_err status)) }
      else if !(is_err status) then
        { obj := h1, new_obj := none, status := status, events := ev1,
          caller_perm_check := some true }
      else
        { obj := { h1 with share := update_share_counters h1.share openflags FSAL_O_CLOSED },
          new_obj := none, status := status,
          events := ev1 ++ [BackendCall.bClose h.node_handle],
          caller_perm_check := none }

/- ========== setattr2 (handle.c, lines 351-504) ========== -/

/-- Oracle for the backend calls made by `setattr2`. -/
structure SetattrBackend where
  truncateResult : Int
  setattrResult : Int
deriving DecidableEq, Repr

/-- `daosfs_fsal_setattr2`: reject masks outside
`daosfs_settable_attributes`; apply the umask to a mode change; a size
change is permitted only on regular files (else `INVAL`/`EINVAL` with no
backend call) and first verifies a read/write grant through the
share-reservation machinery (`fsal_find_fd` with `FSAL_O_RDWR`), then
issues the backend truncate; finally the remaining attributes are pushed
with one backend set-attr call (the stat/mask payload assembly is not
modelled - no claim depends on it; the `clock_gettime` calls for
server-time attributes are assumed to succeed). -/
def daosfs_fsal_setattr2 (h : daosfs_fsal_handle) (bypass : Bool)
    (attrib_set : attrlist) (umask : Nat) (b : SetattrBackend) :
    fsal_status × List BackendCall :=
  if attrib_set.has_unsettable then ({ major := .ERR_FSAL_INVAL, minor := 0 }, [])
  else
    let a :=
      if attrib_set.set_mode then
        { attrib_set with mode := Nat.ldiff attrib_set.mode umask }
      else attrib_set
    if a.set_size && h.obj_type != .REGULAR_FILE then
      ({ major := .ERR_FSAL_INVAL, minor := EINVAL }, [])
    else
      let fd_status := if a.set_size then fsal_find_fd_rdwr h.share bypass else fsal_ok
      if is_err fd_status then (fd_status, [])
      else
        if a.set_size then
          let ev1 := [BackendCall.bTruncate h.node_handle a.filesize]
          if b.truncateResult < 0 then (daosfs2fsal_error b.truncateResult, ev1)
          else
            let ev2 := ev1 ++ [BackendCall.bSetAttr h.node_handle]
            if b.setattrResult < 0 then (daosfs2fsal_error b.setattrResult, ev2)
            else (fsal_ok, ev2)
        else
          let ev2 := [BackendCall.bSetAttr h.node_handle]
          if b.setattrResult < 0 then (daosfs2fsal_error b.setattrResult, ev2)
          else (fsal_ok, ev2)

/- ========== open2, named-create branch (handle.c, lines 883-1043) ========== -/

/-- Oracle for the backend calls made by the named-create branch. -/
structure CreateBackend where
  create1 : BackendRes (Nat × BStat)
  create2 : BackendRes (Nat × BStat)
  openResult : Int
  setattrBackend : SetattrBackend
  getattrsResult : fsal_status
deriving DecidableEq, Repr

/-- The POSIX flags of the first backend create attempt (handle.c, lines
883-892): `O_CREAT` always, `O_EXCL` whenever the mode is guarded or
stronger, or caller attributes are present. -/
def open2_create_flags (openflags : fsal_openflags) (createmode : fsal_create_mode)
    (setattrs : Bool) : posix_flags :=
  let p := fsal2posix_openflags openflags
  { p with creat := true, excl := ge_guarded createmode || setattrs }

/-- The `fileerr` label (handle.c, lines 1033-1043): close the backend file
- note the source closes `handle->node_handle`, the branch's `handle`
variable, which in this branch is the parent directory - and, when this
call created the object, unlink it from the parent; the current `status`
and `*new_obj` are returned as they stand. -/
def open2_fileerr (parent : daosfs_fsal_handle) (name : Nat) (created : Bool)
    (new_obj : Option daosfs_fsal_handle) (status : fsal_status)
    (ev : List BackendCall) : Open2Result :=
  { obj := parent, new_obj := new_obj, status := status,
    events := ev ++ [BackendCall.bClose parent.node_handle] ++
      (if created then [BackendCall.bUnlink parent.node_handle name] else []),
    caller_perm_check := some false }

/-- The successful tail of the named-create branch (handle.c, lines
1016-1031): with a state token, take the share reservation by updating the
counters - note the source updates `handle->share`, the parent directory's
record, while locking the new object's lock. -/
def open2_create_success (parent : daosfs_fsal_handle) (state : Option state_type)
    (openflags : fsal_openflags) (new_obj : Option daosfs_fsal_handle)
    (ev : List BackendCall) : Open2Result :=
  let parent2 :=
    if state.isSome then
      { parent with share := update_share_counters parent.share FSAL_O_CLOSED openflags }
    else parent
  { obj := parent2, new_obj := new_obj, status := fsal_ok, events := ev,
    caller_perm_check := some false }

/-- `daosfs_fsal_open2`, named-create branch (handle.c, lines 883-1043):
`handle` is the parent directory.  Try the backend create (exclusively when
guarded-or-stronger or when caller attributes are present); on `EEXIST`
under `FSAL_UNCHECKED`, retry without `O_EXCL`.  On create success,
construct the new handle, record the open flags on `handle` (the parent, as
in the source), open the backend file, and - only when this call created
the object and caller attributes remain - apply them via `setattr2`; on
setattr failure release the new handle and fall into `fileerr`.
`setattrs` is the source's early-bound `attrib_set != NULL` (computed
before the verifier fixup), while `attrib_set` is the possibly
verifier-fixed list.  When the backend open fails the source jumps to
`fileerr` without assigning `status`, so the call returns the initial
`{0,0}` status. -/
def open2_named_create (handle : daosfs_fsal_handle) (state : Option state_type)
    (openflags : fsal_openflags) (createmode : fsal_create_mode) (name : Nat)
    (setattrs : Bool) (attrib_set : attrlist) (umask root_node : Nat)
    (attrs_out_requested rdattr_err_requested : Bool) (b : CreateBackend) :
    Open2Result :=
  let pf1 := open2_create_flags openflags createmode setattrs
  let a1 :=
    if setattrs && attrib_set.set_mode then { attrib_set with set_mode := false }
    else attrib_set
  let ev1 := [BackendCall.bCreate handle.node_handle name pf1]
  let afterFirst : BackendRes (Nat × BStat) × posix_flags × List BackendCall :=
    match b.create1 with
    | .error rc =>
      if rc = -EEXIST && createmode = .FSAL_UNCHECKED then
        let pf2 := { pf1 with excl := false }
        (b.create2, pf2, ev1 ++ [BackendCall.bCreate handle.node_handle name pf2])
      else (.error rc, pf1, ev1)
    | .ok v => (.ok v, pf1, ev1)
  match afterFirst with
  | (.error rc, _, ev2) =>
    { obj := handle, new_obj := none, status := daosfs2fsal_error rc,
      events := ev2, caller_perm_check := none }
  | (.ok (n, st), pf, ev2) =>
    let created := pf.excl
    let obj := construct_handle n st
    let parent1 := { handle with openflags := openflags }
    let ev3 := ev2 ++ [BackendCall.bOpen n pf]
    if b.openResult < 0 then
      open2_fileerr parent1 name created (some obj) fsal_ok ev3
    else if created && setattrs && a1.mask_nonzero then
      let setattrOut := daosfs_fsal_setattr2 obj false a1 umask b.setattrBackend
      let ev4 := ev3 ++ setattrOut.2
      if is_err setattrOut.1 then
        open2_fileerr parent1 name created none setattrOut.1
          (ev4 ++ release_events obj root_node)
      else if attrs_out_requested then
        let ev5 := ev4 ++ [BackendCall.bGetAttr n]
        if is_err b.getattrsResult && !rdattr_err_requested then
          open2_fileerr parent1 name created (some obj) b.getattrsResult ev5
        else
          open2_create_success parent1 state openflags (some obj) ev5
      else
        open2_create_success parent1 state openflags (some obj) ev4
    else
      open2_create_success parent1 state openflags (some obj) ev3

/- ========== rename (handle.c, lines 520-549) ========== -/

/-- `daosfs_fsal_rename`: the entire body is compiled out (`#if 0`); the
operation performs no backend call and returns success unconditionally. -/
def daosfs_fsal_rename (obj_hdl olddir_hdl newdir_hdl : daosfs_fsal_handle)
    (old_name new_name : Nat) : fsal_status × List BackendCall :=
  (fsal_ok, [])

/- ========== read2 (handle.c, lines 1171-1203) ========== -/

/-- Result of `read2`: status, the bytes-read out-parameter, the
end-of-file out-parameter (none when the source leaves it unset), and the
backend-call trace. -/
structure Read2Result where
  status : fsal_status
  read_amount : Option Nat
  end_of_file : Option Bool
  events : List BackendCall
deriving DecidableEq, Repr

/-- `daosfs_fsal_read2`: extended per-I/O metadata (`info`) is unsupported
(`NOTSUPP`); otherwise the backend read runs and, on success, the source
sets `*end_of_file = (read_amount == 0)` where `read_amount` is the
out-POINTER (always non-null here), not the amount - so end-of-file is
always reported false. -/
def daosfs_fsal_read2 (h : daosfs_fsal_handle) (bypass : Bool)
    (offset buffer_size : Nat) (info_present : Bool)
    (readResult : BackendRes Nat) : Read2Result :=
  if info_present then
    { status := { major := .ERR_FSAL_NOTSUPP, minor := 0 },
      read_amount := none, end_of_file := none, events := [] }
  else
    let ev := [BackendCall.bRead h.node_handle offset buffer_size]
    match readResult with
    | .error rc =>
      { status := daosfs2fsal_error rc, read_amount := none,
        end_of_file := none, events := ev }
    | .ok amount =>
      let read_amount_ptr_is_null := false
      { status := fsal_ok, read_amount := some amount,
        end_of_file := some read_amount_ptr_is_null, events := ev }

/- ================= Concrete fixtures for witnesses ================= -/

/-- A read-only open mode with no deny bits. -/
def of_read : fsal_openflags :=
  { access := .O_READ, deny_read := false, deny_write := false,
    deny_both_mand := false, trunc := false }

/-- A write-only open mode with no deny bits. -/
def of_write : fsal_openflags :=
  { access := .O_WRITE, deny_read := false, deny_write := false,
    deny_both_mand := false, trunc := false }

/-- A held read-only open that denies writers. -/
def of_read_denywrite : fsal_openflags :=
  { access := .O_READ, deny_read := false, deny_write := true,
    deny_both_mand := false, trunc := false }

/-- Backend stat of a regular file, inode 5, no stored verifier. -/
def st_reg5 : BStat :=
  { ftype := .REGULAR_FILE, st_size := 0, st_ino := 5, st_uid := 0,
    st_gid := 0, verf := none }

/-- Backend stat of a regular file, inode 5, stored verifier 1. -/
def st_verf1 : BStat :=
  { ftype := .REGULAR_FILE, st_size := 0, st_ino := 5, st_uid := 0,
    st_gid := 0, verf := some 1 }

/-- Backend stat of a regular file, inode 7. -/
def st_reg7 : BStat :=
  { ftype := .REGULAR_FILE, st_size := 0, st_ino := 7, st_uid := 0,
    st_gid := 0, verf := none }

/-- A freshly constructed regular-file handle on backend node 5. -/
def h_file5 : daosfs_fsal_handle :=
  { node_handle := 5, obj_type := .REGULAR_FILE, fileid := 5,
    share := empty_share, openflags := FSAL_O_CLOSED }

/-- A regular-file handle on node 5 whose share record holds one
deny-write reservation. -/
def h_conf5 : daosfs_fsal_handle :=
  { node_handle := 5, obj_type := .REGULAR_FILE, fileid := 5,
    share := [of_read_denywrite], openflags := FSAL_O_CLOSED }

/-- A directory handle on backend node 1. -/
def h_dir1 : daosfs_fsal_handle :=
  { node_handle := 1, obj_type := .DIRECTORY, fileid := 1,
    share := empty_share, openflags := FSAL_O_CLOSED }

/-- A regular-file handle on backend node 2. -/
def h_reg2 : daosfs_fsal_handle :=
  { node_handle := 2, obj_type := .REGULAR_FILE, fileid := 2,
    share := empty_share, openflags := FSAL_O_CLOSED }

/-- Open-by-handle oracle: backend open succeeds, getattr returns
`st_reg5`. -/
def b_open_ok : OpenBackend :=
  { openResult := 0, getattrResult := .ok st_reg5, closeResult := 0 }

/-- Open-by-handle oracle: backend open fails with -EIO. -/
def b_open_fail : OpenBackend :=
  { openResult := -5, getattrResult := .ok st_reg5, closeResult := 0 }

/-- Open-by-handle oracle: open succeeds, getattr returns a stat whose
stored verifier is 1. -/
def b_verf1 : OpenBackend :=
  { openResult := 0, getattrResult := .ok st_verf1, closeResult := 0 }

/-- An attribute list requesting only an owner change (to uid 42). -/
def a_owner42 : attrlist :=
  { empty_attrlist with set_owner := true, owner := 42 }

/-- An attribute list requesting only a size change (to 100). -/
def a_size100 : attrlist :=
  { empty_attrlist with set_size := true, filesize := 100 }

/-- Named-create oracle for the post-create attribute-failure scenario:
both creates would return node 7, the backend open succeeds, and the
backend set-attr call fails with -EACCES. -/
def b_create_attrfail : CreateBackend :=
  { create1 := .ok (7, st_reg7), create2 := .ok (7, st_reg7), openResult := 0,
    setattrBackend := { truncateResult := 0, setattrResult := -EACCES },
    getattrsResult := fsal_ok }

/-- Named-create oracle for the unchecked-retry scenario: the first create
fails with -EEXIST, the retry returns node 7, the open succeeds. -/
def b_create_retry : CreateBackend :=
  { create1 := .error (-EEXIST), create2 := .ok (7, st_reg7), openResult := 0,
    setattrBackend := { truncateResult := 0, setattrResult := 0 },
    getattrsResult := fsal_ok }

/- ================= Helper lemmas ================= -/

/-- Undoing an optimistic share update (`update(CLOSED, m)` then
`update(m, CLOSED)`) restores the original record. -/
theorem update_share_revert (s : fsal_share) (m : fsal_openflags) :
    update_share_counters (update_share_counters s FSAL_O_CLOSED m) m FSAL_O_CLOSED = s := by
  by_cases hm : m = FSAL_O_CLOSED <;>
    simp [update_share_counters, hm]

/- ================= Claim theorems ================= -/

/-- C5: for every backend error code (a negative value, per the backend's
negated-POSIX convention), the translated major status equals the generic
status prescribed by the spec's mapping table (anything outside the table
mapping to ServerFault), and the minor code carries the backend error's
POSIX errno value (the magnitude of the negated code) unchanged. -/
theorem C5_error_translation (code : Int) (h : code < 0) :
    (daosfs2fsal_error code).major = spec_error_major (-code) ∧
    (daosfs2fsal_error code).minor = -code := by
  refine ⟨?_, rfl⟩
  have h0 : ¬(-code = 0) := by omega
  simp only [daosfs2fsal_error, spec_error_major, if_neg h0]

/-- Witness for C5 at the concrete backend code -5 (an I/O error). -/
theorem C5_error_translation_witness :
    ((-5 : Int) < 0) ∧
    ((daosfs2fsal_error (-5)).major = spec_error_major 5 ∧
     (daosfs2fsal_error (-5)).minor = 5) :=
  ⟨by decide, C5_error_translation (-5) (by decide)⟩

/-- C1 (code bug): a successful stateful open-by-handle increments the
share counter for the requested mode, but never records the mode in
`handle->openflags` (the source's open-by-handle branch has no such
assignment); `close2` then decrements the counter selected by
`handle->openflags`, which is still `FSAL_O_CLOSED`, so the decrement is a
no-op and the reservation leaks: after the open and its corresponding
close, the counters have NOT returned to their initial (empty) value. -/
theorem C1_share_counter_leak :
    (open2_by_handle h_file5 (some .share_st) of_read .FSAL_NO_CREATE 0 b_open_ok).status
      = fsal_ok ∧
    (open2_by_handle h_file5 (some .share_st) of_read .FSAL_NO_CREATE 0 b_open_ok).obj.openflags
      = FSAL_O_CLOSED ∧
    (daosfs_fsal_close2
        (open2_by_handle h_file5 (some .share_st) of_read .FSAL_NO_CREATE 0 b_open_ok).obj
        (some .share_st) 0).2.1 = fsal_ok ∧
    (daosfs_fsal_close2
        (open2_by_handle h_file5 (some .share_st) of_read .FSAL_NO_CREATE 0 b_open_ok).obj
        (some .share_st) 0).1.share = [of_read] ∧
    [of_read] ≠ h_file5.share := by decide

/-- C2 (code bug): the conflict half of the claim holds - a stateful
open-by-handle against a held conflicting reservation returns `ShareDenied`
with the counters untouched - but the backend-open-failure half fails: at
the concrete failing input (stateful read open, no conflict, backend open
failing with -EIO) the counter update IS reverted, yet the call returns
the initial `{0,0}` SUCCESS status, not the translated error, because the
`goto undo_share` at handle.c:775 never assigns `status` (contradicting
the source's own comment at handle.c:826, "Can only get here with state
not NULL and an error"; the stateless branch at handle.c:772 does return
`daosfs2fsal_error(rc)`). -/
theorem C2_open_failure_returns_success :
    (check_share_conflict h_conf5.share of_write false = true ∧
      open2_by_handle h_conf5 (some .share_st) of_write .FSAL_NO_CREATE 0 b_open_ok =
        { obj := h_conf5, new_obj := none,
          status := { major := .ERR_FSAL_SHARE_DENIED, minor := 0 },
          events := [], caller_perm_check := none }) ∧
    (b_open_fail.openResult < 0 ∧
      check_share_conflict h_file5.share of_read false = false ∧
      (open2_by_handle h_file5 (some .share_st) of_read .FSAL_NO_CREATE 0 b_open_fail).obj.share
        = h_file5.share ∧
      (open2_by_handle h_file5 (some .share_st) of_read .FSAL_NO_CREATE 0 b_open_fail).status
        = fsal_ok ∧
      fsal_ok ≠ daosfs2fsal_error b_open_fail.openResult) := by decide

/-- C3 (code bug): in a named create (unchecked mode with caller
attributes, so the create is exclusive and this call created the object)
whose attribute application fails (-EACCES from the backend set-attr), the
machine does unlink the created object, but the `fileerr` path closes
`handle->node_handle` - the PARENT directory's backend node (node 1) - and
never closes the newly opened file (node 7), contradicting the claim (and
the source's own comment "Close the file we just opened"). -/
theorem C3_attrfail_closes_parent_not_file :
    (open2_named_create h_dir1 none of_write .FSAL_UNCHECKED 3 true a_owner42
        0 0 false false b_create_attrfail) =
      { obj := { h_dir1 with openflags := of_write }, new_obj := none,
        status := { major := .ERR_FSAL_ACCESS, minor := EACCES },
        events := [BackendCall.bCreate 1 3 (open2_create_flags of_write .FSAL_UNCHECKED true),
                   BackendCall.bOpen 7 (open2_create_flags of_write .FSAL_UNCHECKED true),
                   BackendCall.bSetAttr 7,
                   BackendCall.bFreeNodeHandle 7, BackendCall.bFreeNodeHandle 7,
                   BackendCall.bClose 1, BackendCall.bUnlink 1 3],
        caller_perm_check := some false } ∧
    BackendCall.bClose 7 ∉
      (open2_named_create h_dir1 none of_write .FSAL_UNCHECKED 3 true a_owner42
        0 0 false false b_create_attrfail).events := by decide

/-- C4 (code bug): the release/destroy path frees the backend node handle
TWICE for an ordinary (non-root) Handle - once in `release` (handle.c,
line 35) and once more inside `deconstruct_handle` (internal.c, line 210) -
and, for the export's root Handle, still frees it ONCE (via
`deconstruct_handle`), contradicting the claimed exactly-once /
not-at-all behaviour.  Here node 1 is the export root's backend node. -/
theorem C4_release_frees_twice :
    release_events h_reg2 1 =
      [BackendCall.bFreeNodeHandle 2, BackendCall.bFreeNodeHandle 2] ∧
    release_events h_dir1 1 = [BackendCall.bFreeNodeHandle 1] := by decide

/-- C9: every invocation of the rename operation returns success and
issues no backend call (the body is compiled out with `#if 0`). -/
theorem C9_rename_is_noop (obj_hdl olddir_hdl newdir_hdl : daosfs_fsal_handle)
    (old_name new_name : Nat) :
    daosfs_fsal_rename obj_hdl olddir_hdl newdir_hdl old_name new_name =
      (fsal_ok, []) := rfl

/-- C10: for every `read2` call without extended per-I/O metadata whose
backend read succeeds, the end-of-file output is reported false - also
when zero bytes were read - because the source compares the (non-null)
`read_amount` out-pointer, not the amount, against zero. -/
theorem C10_read2_eof_always_false (h : daosfs_fsal_handle) (bypass : Bool)
    (offset buffer_size amount : Nat) (readResult : BackendRes Nat)
    (hres : readResult = .ok amount) :
    (daosfs_fsal_read2 h bypass offset buffer_size false readResult).end_of_file
      = some false ∧
    (daosfs_fsal_read2 h bypass offset buffer_size false readResult).status
      = fsal_ok := by
  subst hres
  simp [daosfs_fsal_read2]

/-- Witness for C10: a successful read of zero bytes still reports
end-of-file false. -/
theorem C10_read2_eof_always_false_witness :
    ((.ok 0 : BackendRes Nat) = .ok 0) ∧
    ((daosfs_fsal_read2 h_file5 false 0 4096 false (.ok 0)).end_of_file = some false ∧
     (daosfs_fsal_read2 h_file5 false 0 4096 false (.ok 0)).status = fsal_ok) :=
  ⟨rfl, C10_read2_eof_always_false h_file5 false 0 4096 0 (.ok 0) rfl⟩

/-- C6: for every open-by-handle `open2` call whose create mode implies
exclusivity, (1) the attribute set is pre-seeded with the embedded
verifier before the open runs, whether or not the caller supplied
attributes; and (2) after a successful backend open (and attribute
refresh), for exclusive modes that check the verifier (not the 9P
variant), a verifier mismatch makes the call return `AlreadyExists`
(the `EEXIST` translation), for stateless and stateful calls alike. -/
theorem C6_exclusive_verifier (createmode : fsal_create_mode)
    (hcm : ge_exclusive createmode = true) :
    (∀ (attrib_set : Option attrlist) (verifier : Nat),
      ∃ a, open2_effective_attrs attrib_set createmode verifier = some a ∧
        a.verf = some verifier) ∧
    (∀ (h : daosfs_fsal_handle) (state : Option state_type)
        (openflags : fsal_openflags) (verifier : Nat) (b : OpenBackend) (st : BStat),
      createmode ≠ .FSAL_EXCLUSIVE_9P →
      check_share_conflict h.share openflags false = false →
      0 ≤ b.openResult →
      b.getattrResult = .ok st →
      check_verifier st verifier = false →
      (open2_by_handle h state openflags createmode verifier b).status =
        { major := .ERR_FSAL_EXIST, minor := EEXIST }) := by
  constructor
  · intro attrib_set verifier
    refine ⟨set_common_verifier (attrib_set.getD empty_attrlist) verifier, ?_, rfl⟩
    simp [open2_effective_attrs, hcm]
  · intro h state openflags verifier b st h9 hnc hopen hga hv
    have hnp : ¬ b.openResult < 0 := by omega
    have h9b : (createmode != .FSAL_EXCLUSIVE_9P) = true := by
      simp [bne_iff_ne, h9]
    have hEx : ({ major := posix2fsal_error EEXIST, minor := EEXIST } : fsal_status) =
        { major := .ERR_FSAL_EXIST, minor := EEXIST } := by decide
    have hie : is_err { major := fsal_errors.ERR_FSAL_EXIST, minor := EEXIST } = true := by
      decide
    cases state <;>
      simp [open2_by_handle, hnc, hnp, hcm, hga, h9b, hv, hEx, hie]

/-- Witness for C6 with `FSAL_EXCLUSIVE`: no caller attributes (part 1
instantiated at `none`), and a by-handle open (stateless, read mode) whose
refreshed attributes carry stored verifier 1 while the request supplies
verifier 9: the call returns `AlreadyExists`. -/
theorem C6_exclusive_verifier_witness :
    ge_exclusive .FSAL_EXCLUSIVE = true ∧
    (∃ a, open2_effective_attrs none .FSAL_EXCLUSIVE 9 = some a ∧ a.verf = some 9) ∧
    (open2_by_handle h_file5 none of_read .FSAL_EXCLUSIVE 9 b_verf1).status =
      { major := .ERR_FSAL_EXIST, minor := EEXIST } :=
  ⟨by decide,
   (C6_exclusive_verifier .FSAL_EXCLUSIVE (by decide)).1 none 9,
   (C6_exclusive_verifier .FSAL_EXCLUSIVE (by decide)).2 h_file5 none of_read 9 b_verf1
     st_verf1 (by decide) (by decide) (by decide) rfl (by decide)⟩

/-- C7: for every named `open2` call in `FSAL_UNCHECKED` create mode whose
first backend create fails with "already exists", the machine retries the
backend create with the exclusive flag cleared (the first two backend
calls are the two creates, the second without `O_EXCL`), and when that
retry succeeds (and the subsequent backend open succeeds) the call returns
success with a handle for the existing object. -/
theorem C7_unchecked_retry (handle : daosfs_fsal_handle) (state : Option state_type)
    (openflags : fsal_openflags) (name : Nat) (setattrs : Bool)
    (attrib_set : attrlist) (umask root_node : Nat)
    (attrs_out_requested rdattr_err_requested : Bool) (b : CreateBackend)
    (n : Nat) (st : BStat)
    (h1 : b.create1 = .error (-EEXIST))
    (h2 : b.create2 = .ok (n, st))
    (h3 : 0 ≤ b.openResult) :
    (open2_named_create handle state openflags .FSAL_UNCHECKED name setattrs
        attrib_set umask root_node attrs_out_requested rdattr_err_requested
        b).events.take 2 =
      [BackendCall.bCreate handle.node_handle name
          (open2_create_flags openflags .FSAL_UNCHECKED setattrs),
       BackendCall.bCreate handle.node_handle name
          { open2_create_flags openflags .FSAL_UNCHECKED setattrs with excl := false }] ∧
    (open2_named_create handle state openflags .FSAL_UNCHECKED name setattrs
        attrib_set umask root_node attrs_out_requested rdattr_err_requested
        b).status = fsal_ok ∧
    (open2_named_create handle state openflags .FSAL_UNCHECKED name setattrs
        attrib_set umask root_node attrs_out_requested rdattr_err_requested
        b).new_obj = some (construct_handle n st) := by
  have hnp : ¬ b.openResult < 0 := by omega
  simp [open2_named_create, h1, h2, hnp, open2_create_success]

/-- Witness for C7: create of name 3 under the directory handle races with
an existing file; the retry returns node 7 and the call succeeds with a
handle bound to node 7. -/
theorem C7_unchecked_retry_witness :
    b_create_retry.create1 = .error (-EEXIST) ∧
    b_create_retry.create2 = .ok (7, st_reg7) ∧
    (0 : Int) ≤ b_create_retry.openResult ∧
    ((open2_named_create h_dir1 none of_write .FSAL_UNCHECKED 3 true a_owner42
        0 0 false false b_create_retry).events.take 2 =
      [BackendCall.bCreate 1 3 (open2_create_flags of_write .FSAL_UNCHECKED true),
       BackendCall.bCreate 1 3
          { open2_create_flags of_write .FSAL_UNCHECKED true with excl := false }] ∧
     (open2_named_create h_dir1 none of_write .FSAL_UNCHECKED 3 true a_owner42
        0 0 false false b_create_retry).status = fsal_ok ∧
     (open2_named_create h_dir1 none of_write .FSAL_UNCHECKED 3 true a_owner42
        0 0 false false b_create_retry).new_obj = some (construct_handle 7 st_reg7)) :=
  ⟨rfl, rfl, by decide,
   C7_unchecked_retry h_dir1 none of_write 3 true a_owner42 0 0 false false
     b_create_retry 7 st_reg7 rfl rfl (by decide)⟩

/-- C8: for every `setattr2` call whose attribute set includes a size
change: on a non-regular-file handle the call returns `InvalidArgument`
without issuing any backend call; on a regular file, the backend truncate
is issued exactly when the read/write access grant verified through the
share-reservation machinery (and the settable-mask screen) allows it, and
a failed grant check surfaces as the call's result with no backend call. -/
theorem C8_setattr_size_guard (h : daosfs_fsal_handle) (bypass : Bool)
    (attrib_set : attrlist) (umask : Nat) (b : SetattrBackend)
    (hsz : attrib_set.set_size = true) :
    (h.obj_type ≠ .REGULAR_FILE →
      (daosfs_fsal_setattr2 h bypass attrib_set umask b).1.major = .ERR_FSAL_INVAL ∧
      (daosfs_fsal_setattr2 h bypass attrib_set umask b).2 = []) ∧
    (h.obj_type = .REGULAR_FILE →
      ((BackendCall.bTruncate h.node_handle attrib_set.filesize ∈
          (daosfs_fsal_setattr2 h bypass attrib_set umask b).2) ↔
        (attrib_set.has_unsettable = false ∧
          is_err (fsal_find_fd_rdwr h.share bypass) = false)) ∧
      (is_err (fsal_find_fd_rdwr h.share bypass) = true →
        attrib_set.has_unsettable = false →
        daosfs_fsal_setattr2 h bypass attrib_set umask b =
          (fsal_find_fd_rdwr h.share bypass, []))) := by
  constructor
  · intro hty
    have hb : (h.obj_type != object_file_type.REGULAR_FILE) = true := by
      simp [bne_iff_ne, hty]
    by_cases hu : attrib_set.has_unsettable <;>
      by_cases hm : attrib_set.set_mode <;>
        simp [daosfs_fsal_setattr2, hu, hm, hsz, hb]
  · intro hty
    by_cases hu : attrib_set.has_unsettable <;>
      by_cases hm : attrib_set.set_mode <;>
        by_cases hfd : is_err (fsal_find_fd_rdwr h.share bypass) <;>
          by_cases ht : b.truncateResult < 0 <;>
            by_cases hs : b.setattrResult < 0 <;>
              simp [daosfs_fsal_setattr2, hu, hm, hsz, hty, hfd, ht, hs]

/-- Witness for C8: truncating the directory handle yields
`InvalidArgument` with no backend call, and truncating the regular-file
handle (empty share record, so the read/write grant is allowed) issues
the backend truncate. -/
theorem C8_setattr_size_guard_witness :
    a_size100.set_size = true ∧
    (h_dir1.obj_type ≠ .REGULAR_FILE ∧
      ((daosfs_fsal_setattr2 h_dir1 false a_size100 0
          { truncateResult := 0, setattrResult := 0 }).1.major = .ERR_FSAL_INVAL ∧
        (daosfs_fsal_setattr2 h_dir1 false a_size100 0
          { truncateResult := 0, setattrResult := 0 }).2 = [])) ∧
    (h_file5.obj_type = .REGULAR_FILE ∧
      ((BackendCall.bTruncate h_file5.node_handle a_size100.filesize ∈
          (daosfs_fsal_setattr2 h_file5 false a_size100 0
            { truncateResult := 0, setattrResult := 0 }).2) ↔
        (a_size100.has_unsettable = false ∧
          is_err (fsal_find_fd_rdwr h_file5.share false) = false))) :=
  ⟨by decide,
   ⟨by decide,
    (C8_setattr_size_guard h_dir1 false a_size100 0
        { truncateResult := 0, setattrResult := 0 } (by decide)).1 (by decide)⟩,
   ⟨by decide,
    ((C8_setattr_size_guard h_file5 false a_size100 0
        { truncateResult := 0, setattrResult := 0 } (by decide)).2 (by decide)).1⟩⟩
